import Mathlib

/-!
Shallow embedding of the PDF_Edit repository.

Source files: src/pdf_edit/FontManager.py and src/pdf_edit/PDFEditor.py.
Python strings become Lean String, Python floats become ℚ, filesystem and
network effects become explicit oracle fields of environment structures, and
Python exceptions become Except/Option results. Each definition mirrors one
Python function of the source; the oracles stand for the third-party library
calls (PyMuPDF, requests, os) whose outcomes the code branches on.
-/

/-- Python substring test (needle in hay) on char lists: true when pat occurs
as a contiguous run somewhere in the list. -/
def hasSub (pat : List Char) : List Char → Bool
  | [] => pat.isPrefixOf []
  | c :: rest => pat.isPrefixOf (c :: rest) || hasSub pat rest

/-- Core loop of Python str.replace on char lists: replaces every
non-overlapping occurrence of pat, left to right. The skip counter consumes
the remainder of a matched pattern. All call sites in the source use a
non-empty pattern, for which this is Python's semantics. -/
def pyReplaceGo (pat rep : List Char) : List Char → Nat → List Char
  | [], _ => []
  | _ :: rest, Nat.succ skip => pyReplaceGo pat rep rest skip
  | c :: rest, 0 =>
    if pat.isPrefixOf (c :: rest) then rep ++ pyReplaceGo pat rep rest (pat.length - 1)
    else c :: pyReplaceGo pat rep rest 0

/-- Python s.lower(), ASCII as used on font and file names. -/
def pyLower (s : String) : String := String.mk (s.data.map Char.toLower)

/-- Python s.replace(pat, rep). -/
def pyReplace (s pat rep : String) : String :=
  String.mk (pyReplaceGo pat.data rep.data s.data 0)

/-- Python (needle in hay) for strings. -/
def pyContains (hay needle : String) : Bool := hasSub needle.data hay.data

/-- Python s.endswith(suf). -/
def pyEndsWith (s suf : String) : Bool := List.isSuffixOf suf.data s.data

/-- Python hay.find(needle, start): least index at least start where needle
occurs, else -1. -/
def pyFind (hay needle : String) (start : Nat) : Int :=
  match (List.range (hay.data.length + 1)).find?
      (fun i => decide (start ≤ i) && needle.data.isPrefixOf (hay.data.drop i)) with
  | some i => (i : Int)
  | none => -1

/-- os.path.join for the two-component joins the code performs; the separator
choice is immaterial to the claims. -/
def pathJoin (a b : String) : String := a ++ "/" ++ b

/-- Discriminator for sys.platform as tested by FontManager. -/
inductive Platform
  | win32
  | darwin
  | other
deriving DecidableEq

/-- Python exception kinds that can escape the modelled FontManager code. -/
inductive PyError
  | keyError
deriving DecidableEq

/-- Oracle environment for FontManager: OS identity, environment variables,
home directory, filesystem observations and network responses.
cssGet/fontGet return none when requests.get raises, otherwise the status
code with the body (and Content-Type for font downloads). -/
structure FontEnv where
  platform : Platform
  winDir : Option String
  localAppData : Option String
  home : String
  dirExists : String → Bool
  walk : String → List (String × List String)
  cssGet : String → Option (Nat × String)
  fontGet : String → Option (Nat × String × String)
  makedirsOk : Bool
  writeOk : Bool

/-- FontManager.font_extensions. -/
def font_extensions : List String := [".ttf", ".otf", ".woff", ".woff2"]

/-- FontManager.get_system_font_dirs. On win32 the os.environ lookups raise
KeyError when the variable is absent; nothing catches that there. -/
def get_system_font_dirs (e : FontEnv) : Except PyError (List String) :=
  match e.platform with
  | Platform.win32 =>
    match e.winDir, e.localAppData with
    | some w, some l =>
      Except.ok [pathJoin w ("Fonts"), pathJoin l ("Microsoft/Windows/Fonts")]
    | _, _ => Except.error PyError.keyError
  | Platform.darwin =>
    Except.ok ["/Library/Fonts", "/System/Library/Fonts", e.home ++ "/Library/Fonts"]
  | Platform.other =>
    Except.ok ["/usr/share/fonts", "/usr/local/share/fonts",
      e.home ++ "/.fonts", e.home ++ "/.local/share/fonts"]

/-- FontManager._search_font_in_directory: first file in walk order whose
lowercased name contains the normalized family name and carries a font
extension. -/
def search_font_in_directory (e : FontEnv) (directory font_name : String) : Option String :=
  let font_name_lower := pyReplace (pyLower font_name) (" ") ("")
  (e.walk directory).findSome? fun rf =>
    rf.2.findSome? fun file =>
      let file_lower := pyLower file
      if font_extensions.any
          (fun ext => pyContains file_lower font_name_lower && pyEndsWith file_lower ext)
      then some (pathJoin rf.1 file)
      else none

/-- FontManager.find_font_in_system. A KeyError from get_system_font_dirs
propagates: there is no try/except on this path. -/
def find_font_in_system (e : FontEnv) (font_name : String) : Except PyError (Option String) :=
  match get_system_font_dirs e with
  | Except.error err => Except.error err
  | Except.ok font_dirs =>
    Except.ok (font_dirs.findSome? fun d =>
      if e.dirExists d then search_font_in_directory e d font_name else none)

/-- FontManager.get_font_save_directory; the win32 branch can raise KeyError,
but every caller reaches it inside a try block. -/
def get_font_save_directory (e : FontEnv) : Except PyError String :=
  match e.platform with
  | Platform.win32 =>
    match e.localAppData with
    | some l => Except.ok (pathJoin l ("Microsoft/Windows/Fonts"))
    | none => Except.error PyError.keyError
  | Platform.darwin => Except.ok (e.home ++ "/Library/Fonts")
  | Platform.other => Except.ok (e.home ++ "/.local/share/fonts")

/-- FontManager.get_font_extension: substring checks in priority order. -/
def get_font_extension (content_type : String) : String :=
  if pyContains content_type ("woff2") then ".woff2"
  else if pyContains content_type ("woff") then ".woff"
  else if pyContains content_type ("opentype") then ".otf"
  else ".ttf"

/-- FontManager._extract_font_url: first url(...) token of the CSS body. -/
def extract_font_url (css_content : String) : Option String :=
  let url_start : Int := pyFind css_content ("url(") 0 + 4
  let url_end : Int := pyFind css_content (")") url_start.toNat
  if url_start < 4 ∨ url_end < 0 then none
  else
    some (String.mk
      ((css_content.data.drop url_start.toNat).take (url_end.toNat - url_start.toNat)))

/-- FontManager._save_font_file: every failure inside its try block (network
exception, bad status, KeyError from the save directory, makedirs or write
errors) yields none. -/
def save_font_file (e : FontEnv) (font_name font_url : String) : Option String :=
  match e.fontGet font_url with
  | none => none
  | some (status, content_type, _content) =>
    if status ≠ 200 then none
    else
      match get_font_save_directory e with
      | Except.error _ => none
      | Except.ok font_save_dir =>
        if e.makedirsOk = false then none
        else
          let ext := get_font_extension content_type
          let safe_font_name := pyReplace font_name (" ") ("_")
          let font_path := pathJoin font_save_dir (safe_font_name ++ ext)
          if e.writeOk then some font_path else none

/-- FontManager.download_google_font: wrapped in try/except, all failures
yield none. -/
def download_google_font (e : FontEnv) (font_name : String) : Option String :=
  let api_font_name := pyReplace font_name (" ") ("+")
  let api_url := "https://fonts.googleapis.com/css?family=" ++ api_font_name
  match e.cssGet api_url with
  | none => none
  | some (status, body) =>
    if status ≠ 200 then none
    else
      match extract_font_url body with
      | none => none
      | some font_url => save_font_file e font_name font_url

/-- FontManager.find_font: system scan first (whose exceptions propagate),
then the Google Fonts download. -/
def find_font (e : FontEnv) (font_name : String) : Except PyError (Option String) :=
  match find_font_in_system e font_name with
  | Except.error err => Except.error err
  | Except.ok (some font_path) => Except.ok (some font_path)
  | Except.ok none => Except.ok (download_google_font e font_name)

/-- A PyMuPDF span colour as copied verbatim by get_text_properties: either an
RGB triple (the shape of the default (0,0,0)) or the integer form PyMuPDF
reports in span dictionaries. -/
inductive ColorVal
  | triple (r g b : ℚ)
  | intColor (n : ℤ)
deriving DecidableEq

/-- One span of the structured text dictionary; keys absent from the span
dictionary are none. -/
structure Span where
  font : Option String
  size : Option ℚ
  color : Option ColorVal
deriving DecidableEq

structure TextLine where
  spans : List Span
deriving DecidableEq

structure Block where
  lines : List TextLine
deriving DecidableEq

/-- Outcome of the page.get_text("dict", clip=...) call: it can raise, return
a non-dict, a dict without a blocks key, or a dict with a list of blocks. -/
inductive GetTextDictResult
  | raises
  | nonDict
  | dict (blocks : Option (List Block))
deriving DecidableEq

structure TextProperties where
  font : String
  size : ℚ
  color : ColorVal
deriving DecidableEq

/-- The defaults set at the top of PDFEditor.get_text_properties. -/
def default_properties : TextProperties :=
  { font := "helv", size := 11, color := ColorVal.triple 0 0 0 }

/-- PDFEditor.get_text_properties: returns none exactly when page.get_text
raises (the outer except); otherwise starts from the defaults and copies any
field present in the first span of the first line of the first block, an
IndexError on that access being caught and leaving the defaults. -/
def get_text_properties (font_info : GetTextDictResult) : Option TextProperties :=
  match font_info with
  | GetTextDictResult.raises => none
  | GetTextDictResult.nonDict => some default_properties
  | GetTextDictResult.dict none => some default_properties
  | GetTextDictResult.dict (some blocks) =>
    match blocks with
    | [] => some default_properties
    | b :: _ =>
      match b.lines with
      | [] => some default_properties
      | l :: _ =>
        match l.spans with
        | [] => some default_properties
        | span :: _ =>
          some { font := span.font.getD default_properties.font,
                 size := span.size.getD default_properties.size,
                 color := span.color.getD default_properties.color }

/-- The builtin_fonts set of PDFEditor.insert_new_text. -/
def builtin_fonts : List String := ["helv", "tiro", "cour", "symb", "zadb"]

/-- Oracles for one insert_new_text call: the FontManager environment, whether
page.parent.load_font succeeds on a given file, and whether page.insert_text
succeeds. -/
structure InsertCtx where
  fontEnv : FontEnv
  loadFontOk : String → Bool
  insertTextOk : Bool

/-- Observable outcome of insert_new_text: the boolean it returns, the
fontname handed to page.insert_text (none when the call never reaches
insert_text because find_font raised into the outer except), whether
FontManager.find_font was invoked at all, and which file, if any, was
registered with the document via load_font. -/
structure InsertResult where
  ok : Bool
  usedFont : Option String
  locatorCalled : Bool
  loadedFile : Option String
deriving DecidableEq

/-- PDFEditor.insert_new_text. -/
def insert_new_text (ctx : InsertCtx) (_position : ℚ × ℚ) (_text : String)
    (props : TextProperties) : InsertResult :=
  if builtin_fonts.contains props.font then
    { ok := ctx.insertTextOk, usedFont := some props.font,
      locatorCalled := false, loadedFile := none }
  else
    match find_font ctx.fontEnv props.font with
    | Except.error _ =>
      { ok := false, usedFont := none, locatorCalled := true, loadedFile := none }
    | Except.ok (some font_file) =>
      if ctx.loadFontOk font_file then
        { ok := ctx.insertTextOk, usedFont := some props.font,
          locatorCalled := true, loadedFile := some font_file }
      else
        { ok := ctx.insertTextOk, usedFont := some ("helv"),
          locatorCalled := true, loadedFile := none }
    | Except.ok none =>
      { ok := ctx.insertTextOk, usedFont := some ("helv"),
        locatorCalled := true, loadedFile := none }

/-- fitz.Rect as used in edit_text: x0,y0 is the top-left corner. -/
structure Rect where
  x0 : ℚ
  y0 : ℚ
  x1 : ℚ
  y1 : ℚ
deriving DecidableEq

/-- One entry of page.search_for(old_text) together with the oracles for the
calls made while processing it: the structured-text result for its clip, the
redaction outcome, and the insertion context. -/
structure MatchCase where
  rect : Rect
  textDict : GetTextDictResult
  redactOk : Bool
  insertCtx : InsertCtx

/-- What happened to one match inside the edit_text loop. -/
inductive MatchOutcome
  | skippedNoProps
  | skippedRedactFailed (props : TextProperties)
  | skippedInsertFailed (props : TextProperties) (pos : ℚ × ℚ) (r : InsertResult)
  | replaced (props : TextProperties) (pos : ℚ × ℚ) (r : InsertResult)
deriving DecidableEq

/-- The insertion point handed to insert_new_text, when one was computed. -/
def MatchOutcome.insertPos : MatchOutcome → Option (ℚ × ℚ)
  | MatchOutcome.skippedInsertFailed _ pos _ => some pos
  | MatchOutcome.replaced _ pos _ => some pos
  | _ => none

/-- True when the match was skipped (or its insertion failed) rather than
replaced successfully. -/
def MatchOutcome.isSkip : MatchOutcome → Bool
  | MatchOutcome.replaced _ _ _ => false
  | _ => true

/-- The baseline heuristic of PDFEditor.edit_text:
baseline_offset = font_size + font_size * 0.08. -/
def baseline_offset (font_size : ℚ) : ℚ := font_size + font_size * (8 / 100)

/-- The body of the for-loop of PDFEditor.edit_text for one text instance:
extract properties (continue on none), redact (continue on false), compute the
baseline-adjusted position, insert (continue either way). -/
def processMatch (new_text : String) (mc : MatchCase) : MatchOutcome :=
  match get_text_properties mc.textDict with
  | none => MatchOutcome.skippedNoProps
  | some props =>
    if mc.redactOk = false then MatchOutcome.skippedRedactFailed props
    else
      let pos : ℚ × ℚ := (mc.rect.x0, mc.rect.y0 + baseline_offset props.size)
      let r := insert_new_text mc.insertCtx pos new_text props
      if r.ok then MatchOutcome.replaced props pos r
      else MatchOutcome.skippedInsertFailed props pos r

/-- Oracle environment for one edit_text invocation: whether fitz.open, the
page access and page.search_for succeed, the found instances with their
per-match oracles, whether doc.save succeeds, and the page count of the
opened document (which nothing in the loop alters). -/
structure DocEnv where
  openOk : Bool
  matchCases : List MatchCase
  saveOk : Bool
  pageCount : Nat

/-- The document file written by doc.save. -/
structure SavedFile where
  path : String
  pageCount : Nat
deriving DecidableEq

/-- Observable outcome of edit_text: the returned boolean, the per-match
outcomes in order, the path handed to doc.save (none when open failed), and
the file actually written (none when open or save failed). -/
structure EditResult where
  ok : Bool
  outcomes : List MatchOutcome
  saveAttempt : Option String
  savedFile : Option SavedFile

/-- The output path computed in PDFEditor.edit_text:
self.filename.replace('.pdf', '_edited.pdf'). -/
def output_path (filename : String) : String :=
  pyReplace filename (".pdf") ("_edited.pdf")

/-- PDFEditor.edit_text: open the document (an exception here or at save time
is caught by the outer except and yields False), process every found instance
in order, then save to the derived output path. -/
def edit_text (env : DocEnv) (filename _old_text new_text : String) : EditResult :=
  if env.openOk then
    let outcomes := env.matchCases.map (processMatch new_text)
    let path := output_path filename
    if env.saveOk then
      { ok := true, outcomes := outcomes, saveAttempt := some path,
        savedFile := some { path := path, pageCount := env.pageCount } }
    else
      { ok := false, outcomes := outcomes, saveAttempt := some path, savedFile := none }
  else
    { ok := false, outcomes := [], saveAttempt := none, savedFile := none }

/-- The characters of the replace pattern '.pdf'. -/
def pdfChars : List Char := ['.', 'p', 'd', 'f']

/-- A FontEnv with nothing on disk and the network down. -/
def emptyFontEnv : FontEnv :=
  { platform := Platform.other, winDir := none, localAppData := none,
    home := "/home/user", dirExists := fun _ => false, walk := fun _ => [],
    cssGet := fun _ => none, fontGet := fun _ => none,
    makedirsOk := true, writeOk := true }

/-- A Windows FontEnv whose WINDIR and LOCALAPPDATA variables are unset. -/
def winEnvNoVars : FontEnv :=
  { platform := Platform.win32, winDir := none, localAppData := none,
    home := "C:/Users/u", dirExists := fun _ => false, walk := fun _ => [],
    cssGet := fun _ => none, fontGet := fun _ => none,
    makedirsOk := true, writeOk := true }

/-- Insertion oracles where loading and drawing succeed. -/
def sampleInsertCtx : InsertCtx :=
  { fontEnv := emptyFontEnv, loadFontOk := fun _ => true, insertTextOk := true }

/-- A match whose structured-text result is not a dict, so the defaults apply. -/
def sampleMatchCase : MatchCase :=
  { rect := { x0 := 100, y0 := 750, x1 := 160, y1 := 762 },
    textDict := GetTextDictResult.nonDict, redactOk := true,
    insertCtx := sampleInsertCtx }

/-- A match whose property extraction raises, so the loop skips it. -/
def raisingMatchCase : MatchCase :=
  { rect := { x0 := 0, y0 := 0, x1 := 1, y1 := 1 },
    textDict := GetTextDictResult.raises, redactOk := true,
    insertCtx := sampleInsertCtx }

/-- A normal invocation environment with zero matches on the page. -/
def envZeroMatches : DocEnv :=
  { openOk := true, matchCases := [], saveOk := true, pageCount := 3 }

/-- Open succeeds but the final save fails. -/
def envSaveFails : DocEnv :=
  { openOk := true, matchCases := [], saveOk := false, pageCount := 1 }

/-- Open and save succeed; the single match is skipped. -/
def envOpenOkOneSkip : DocEnv :=
  { openOk := true, matchCases := [raisingMatchCase], saveOk := true, pageCount := 1 }

/-- Open and save succeed; no matches. -/
def envOpenOkNoMatch : DocEnv :=
  { openOk := true, matchCases := [], saveOk := true, pageCount := 1 }

/-- Extracted properties for a non-builtin font family. -/
def arialProps : TextProperties :=
  { font := "Arial", size := 12, color := ColorVal.intColor 0 }

/-- A block holding a single line that has no spans. -/
def emptyLineBlock : Block := { lines := [{ spans := [] }] }

/-- C1 counterexample: when the structured-text call page.get_text raises, the
extractor returns none rather than a fully-populated TextProperties value, so
"extract never fails" does not hold as stated. -/
theorem get_text_properties_raises_returns_none :
    get_text_properties GetTextDictResult.raises = none := rfl

/-- C1 (amended): whenever the page.get_text call itself does not raise,
get_text_properties returns a TextProperties value, and that value is fully
populated (every field of TextProperties is total); when the call raises, the
extractor returns none and the caller skips the match. -/
theorem get_text_properties_some_unless_raises (r : GetTextDictResult)
    (h : r ≠ GetTextDictResult.raises) :
    ∃ p, get_text_properties r = some p := by
  cases r with
  | raises => exact absurd rfl h
  | nonDict => exact ⟨_, rfl⟩
  | dict ob =>
    cases ob with
    | none => exact ⟨_, rfl⟩
    | some bs =>
      cases bs with
      | nil => exact ⟨_, rfl⟩
      | cons b rest =>
        obtain ⟨lines⟩ := b
        cases lines with
        | nil => exact ⟨_, rfl⟩
        | cons l ls =>
          obtain ⟨spans⟩ := l
          cases spans with
          | nil => exact ⟨_, rfl⟩
          | cons s ss => exact ⟨_, rfl⟩

/-- Witness for C1's amended theorem at the concrete non-raising input nonDict. -/
theorem get_text_properties_some_unless_raises_witness :
    ∃ p, get_text_properties GetTextDictResult.nonDict = some p :=
  get_text_properties_some_unless_raises GetTextDictResult.nonDict (by decide)

/-- C2: for a structured-text result that holds no spans at all (in particular
no blocks), get_text_properties returns exactly the default triple: built-in
sans-serif 'helv', size 11, black (0,0,0). -/
theorem get_text_properties_default_when_no_spans (bs : List Block)
    (h : ∀ b ∈ bs, ∀ l ∈ b.lines, l.spans = []) :
    get_text_properties (GetTextDictResult.dict (some bs))
      = some { font := "helv", size := 11, color := ColorVal.triple 0 0 0 } := by
  cases bs with
  | nil => rfl
  | cons b rest =>
    obtain ⟨lines⟩ := b
    cases lines with
    | nil => rfl
    | cons l ls =>
      have hsp : l.spans = [] := h ⟨l :: ls⟩ (by simp) l (by simp)
      obtain ⟨spans⟩ := l
      simp only at hsp
      subst hsp
      rfl

/-- Witness for C2 at a concrete block list with one line and no spans. -/
theorem get_text_properties_default_when_no_spans_witness :
    get_text_properties (GetTextDictResult.dict (some [emptyLineBlock]))
      = some { font := "helv", size := 11, color := ColorVal.triple 0 0 0 } :=
  get_text_properties_default_when_no_spans [emptyLineBlock] (by decide)

/-- C5: for a font name that is one of the built-in aliases, insert_new_text
uses that alias directly and never invokes FontManager.find_font, so no system
scan and no network lookup occurs. -/
theorem insert_new_text_builtin_short_circuit (ctx : InsertCtx) (pos : ℚ × ℚ)
    (text : String) (props : TextProperties)
    (h : builtin_fonts.contains props.font = true) :
    (insert_new_text ctx pos text props).locatorCalled = false ∧
    (insert_new_text ctx pos text props).usedFont = some props.font := by
  have hm : props.font ∈ builtin_fonts := by simpa using h
  simp [insert_new_text, hm]

/-- Witness for C5 at the builtin default font 'helv'. -/
theorem insert_new_text_builtin_short_circuit_witness :
    (insert_new_text sampleInsertCtx (0, 0) ("hi") default_properties).locatorCalled
      = false ∧
    (insert_new_text sampleInsertCtx (0, 0) ("hi") default_properties).usedFont
      = some default_properties.font :=
  insert_new_text_builtin_short_circuit sampleInsertCtx (0, 0) ("hi")
    default_properties (by decide)

/-- C6: for a font name that is not a built-in alias, insert_new_text always
calls FontManager.find_font; when a file is found and registration succeeds it
draws with the original family name (having registered the located file), when
registration fails it draws with the default built-in font 'helv', and when no
file is found it also draws with 'helv'. -/
theorem insert_new_text_locator_fallback (ctx : InsertCtx) (pos : ℚ × ℚ)
    (text : String) (props : TextProperties)
    (h : builtin_fonts.contains props.font = false) :
    (insert_new_text ctx pos text props).locatorCalled = true ∧
    (∀ font_file, find_font ctx.fontEnv props.font = Except.ok (some font_file) →
        ctx.loadFontOk font_file = true →
        (insert_new_text ctx pos text props).usedFont = some props.font ∧
        (insert_new_text ctx pos text props).loadedFile = some font_file) ∧
    (∀ font_file, find_font ctx.fontEnv props.font = Except.ok (some font_file) →
        ctx.loadFontOk font_file = false →
        (insert_new_text ctx pos text props).usedFont = some ("helv")) ∧
    (find_font ctx.fontEnv props.font = Except.ok none →
        (insert_new_text ctx pos text props).usedFont = some ("helv")) := by
  have hm : props.font ∉ builtin_fonts := by simpa using h
  refine ⟨?_, ?_, ?_, ?_⟩
  · cases hf : find_font ctx.fontEnv props.font with
    | error err => simp [insert_new_text, hm, hf]
    | ok r =>
      cases r with
      | none => simp [insert_new_text, hm, hf]
      | some font_file =>
        cases hl : ctx.loadFontOk font_file <;> simp [insert_new_text, hm, hf, hl]
  · intro font_file hfind hload
    simp [insert_new_text, hm, hfind, hload]
  · intro font_file hfind hload
    simp [insert_new_text, hm, hfind, hload]
  · intro hfind
    simp [insert_new_text, hm, hfind]

/-- Witness for C6 at the non-builtin family 'Arial' with an environment where
the locator finds nothing. -/
theorem insert_new_text_locator_fallback_witness :
    (insert_new_text sampleInsertCtx (0, 0) ("hi") arialProps).locatorCalled = true ∧
    (∀ font_file,
        find_font sampleInsertCtx.fontEnv arialProps.font = Except.ok (some font_file) →
        sampleInsertCtx.loadFontOk font_file = true →
        (insert_new_text sampleInsertCtx (0, 0) ("hi") arialProps).usedFont
          = some arialProps.font ∧
        (insert_new_text sampleInsertCtx (0, 0) ("hi") arialProps).loadedFile
          = some font_file) ∧
    (∀ font_file,
        find_font sampleInsertCtx.fontEnv arialProps.font = Except.ok (some font_file) →
        sampleInsertCtx.loadFontOk font_file = false →
        (insert_new_text sampleInsertCtx (0, 0) ("hi") arialProps).usedFont
          = some ("helv")) ∧
    (find_font sampleInsertCtx.fontEnv arialProps.font = Except.ok none →
        (insert_new_text sampleInsertCtx (0, 0) ("hi") arialProps).usedFont
          = some ("helv")) :=
  insert_new_text_locator_fallback sampleInsertCtx (0, 0) ("hi") arialProps (by decide)

/-- Helper: under the environment-variable assumption, the directory list
computation never raises. -/
theorem get_system_font_dirs_ok (e : FontEnv)
    (hwin : e.platform = Platform.win32 → e.winDir.isSome ∧ e.localAppData.isSome) :
    ∃ ds, get_system_font_dirs e = Except.ok ds := by
  unfold get_system_font_dirs
  cases hp : e.platform with
  | win32 =>
    obtain ⟨h1, h2⟩ := hwin hp
    obtain ⟨w, hw⟩ := Option.isSome_iff_exists.mp h1
    obtain ⟨l, hl⟩ := Option.isSome_iff_exists.mp h2
    rw [hw, hl]
    exact ⟨_, rfl⟩
  | darwin => exact ⟨_, rfl⟩
  | other => exact ⟨_, rfl⟩

/-- C7 counterexample: on Windows with WINDIR and LOCALAPPDATA absent from the
environment, find_font raises KeyError to its caller (the system-scan path has
no try/except) instead of surfacing the failure as a null result. -/
theorem find_font_win32_missing_env_raises :
    find_font winEnvNoVars ("Roboto") = Except.error PyError.keyError := rfl

/-- C7 (amended): provided the Windows environment variables the system scan
reads are present (a vacuous condition on non-Windows platforms), find_font
never raises; and when the scan finds nothing on disk and the web-font
download fails (network failure, non-200 response, unparsable CSS or save
error, all of which make download_google_font return none), find_font returns
null. On Windows with WINDIR or LOCALAPPDATA unset, the scan raises KeyError. -/
theorem find_font_failures_return_none (e : FontEnv) (font_name : String)
    (hwin : e.platform = Platform.win32 → e.winDir.isSome ∧ e.localAppData.isSome) :
    (∃ r, find_font e font_name = Except.ok r) ∧
    (find_font_in_system e font_name = Except.ok none →
      download_google_font e font_name = none →
      find_font e font_name = Except.ok none) := by
  constructor
  · obtain ⟨ds, hds⟩ := get_system_font_dirs_ok e hwin
    have hsys : find_font_in_system e font_name
        = Except.ok (ds.findSome? fun d =>
            if e.dirExists d then search_font_in_directory e d font_name else none) := by
      simp [find_font_in_system, hds]
    cases hfs : ds.findSome? fun d =>
        if e.dirExists d then search_font_in_directory e d font_name else none with
    | none =>
      exact ⟨download_google_font e font_name, by rw [find_font, hsys, hfs]⟩
    | some p => exact ⟨some p, by rw [find_font, hsys, hfs]⟩
  · intro hsys hdl
    rw [find_font, hsys, hdl]

/-- Witness for C7's amended theorem on a Linux environment with an empty
filesystem and the network down. -/
theorem find_font_failures_return_none_witness :
    (∃ r, find_font emptyFontEnv ("Roboto") = Except.ok r) ∧
    (find_font_in_system emptyFontEnv ("Roboto") = Except.ok none →
      download_google_font emptyFontEnv ("Roboto") = none →
      find_font emptyFontEnv ("Roboto") = Except.ok none) :=
  find_font_failures_return_none emptyFontEnv ("Roboto") (by decide)

/-- C3 counterexample: an invocation whose document opens successfully but
whose final doc.save raises still returns false, so a failure to open the
document is not the only failure that is fatal for the invocation. -/
theorem edit_text_save_failure_is_fatal :
    envSaveFails.openOk = true ∧
    (edit_text envSaveFails ("a.pdf") ("x") ("y")).ok = false := by
  constructor
  · rfl
  · rfl

/-- C3 (amended): every per-match failure (extraction returning nothing,
redaction returning false, or insertion returning false) only advances
processing to the next match: whenever the document opens, every found match
receives an outcome, and the returned boolean ignores the per-match outcomes
entirely. A failure to open the document is fatal for the invocation, and so
is a failure of the final save: the invocation returns true exactly when open
and save both succeed. -/
theorem edit_text_processes_all_matches (env : DocEnv) (f o n : String) :
    (edit_text env f o n).outcomes.length
      = (cond env.openOk env.matchCases.length 0) ∧
    (edit_text env f o n).ok = (env.openOk && env.saveOk) := by
  cases ho : env.openOk <;> cases hs : env.saveOk <;>
    simp [edit_text, ho, hs]

/-- C4: whenever extraction succeeds and redaction succeeds, the loop hands
insert_new_text exactly the point (match.left, match.top + size + size*0.08),
and for the default size 11 that vertical offset is 11.88. -/
theorem processMatch_insertion_point (new_text : String) (mc : MatchCase)
    (props : TextProperties) (hp : get_text_properties mc.textDict = some props)
    (hr : mc.redactOk = true) :
    (processMatch new_text mc).insertPos
      = some (mc.rect.x0, mc.rect.y0 + (props.size + props.size * (8 / 100))) ∧
    baseline_offset 11 = 1188 / 100 := by
  constructor
  · simp only [processMatch, hp, hr]
    cases hok : (insert_new_text mc.insertCtx
        (mc.rect.x0, mc.rect.y0 + baseline_offset props.size) new_text props).ok <;>
      simp [hok, MatchOutcome.insertPos, baseline_offset]
  · rw [baseline_offset]
    norm_num

/-- Witness for C4 at a concrete match whose extraction yields the defaults. -/
theorem processMatch_insertion_point_witness :
    (processMatch ("redacted") sampleMatchCase).insertPos
      = some (sampleMatchCase.rect.x0,
          sampleMatchCase.rect.y0
            + (default_properties.size + default_properties.size * (8 / 100))) ∧
    baseline_offset 11 = 1188 / 100 :=
  processMatch_insertion_point ("redacted") sampleMatchCase default_properties rfl rfl

/-- C9: on a page with zero occurrences of the search string, provided the
document opens and the save succeeds, edit_text returns true and still
performs the save, writing an output file whose page count equals the opened
document's page count. -/
theorem edit_text_zero_matches_saves (env : DocEnv) (f o n : String)
    (hm : env.matchCases = []) (ho : env.openOk = true) (hs : env.saveOk = true) :
    (edit_text env f o n).ok = true ∧
    (edit_text env f o n).outcomes = [] ∧
    (edit_text env f o n).savedFile
      = some { path := output_path f, pageCount := env.pageCount } := by
  simp [edit_text, ho, hs, hm]

/-- Witness for C9 at a concrete three-page environment with no matches. -/
theorem edit_text_zero_matches_saves_witness :
    (edit_text envZeroMatches ("sample.pdf") ("old") ("new")).ok = true ∧
    (edit_text envZeroMatches ("sample.pdf") ("old") ("new")).outcomes = [] ∧
    (edit_text envZeroMatches ("sample.pdf") ("old") ("new")).savedFile
      = some { path := output_path ("sample.pdf"),
               pageCount := envZeroMatches.pageCount } :=
  edit_text_zero_matches_saves envZeroMatches ("sample.pdf") ("old") ("new") rfl rfl rfl

/-- C10: the boolean edit_text returns is (openOk && saveOk), independent of
every per-match outcome; in particular there is an invocation that returns
true although its only match was skipped without any replacement. -/
theorem edit_text_success_independent_of_matches :
    (∀ (env : DocEnv) (f o n : String),
        (edit_text env f o n).ok = (env.openOk && env.saveOk)) ∧
    (∃ (env : DocEnv) (f o n : String),
        (edit_text env f o n).ok = true ∧
        (edit_text env f o n).outcomes ≠ [] ∧
        ∀ m ∈ (edit_text env f o n).outcomes, m.isSkip = true) := by
  constructor
  · intro env f o n
    cases ho : env.openOk <;> cases hs : env.saveOk <;> simp [edit_text, ho, hs]
  · refine ⟨envOpenOkOneSkip, ("a.pdf"), ("x"), ("y"), rfl, ?_, ?_⟩
    · have houts : (edit_text envOpenOkOneSkip ("a.pdf") ("x") ("y")).outcomes
          = [MatchOutcome.skippedNoProps] := rfl
      rw [houts]
      simp
    · have houts : (edit_text envOpenOkOneSkip ("a.pdf") ("x") ("y")).outcomes
          = [MatchOutcome.skippedNoProps] := rfl
      rw [houts]
      intro m hm
      rw [List.mem_singleton] at hm
      rw [hm]
      rfl

/-- Helper: the pattern '.pdf' has no self-overlap, so a prefix occurrence of
it in l ++ '.pdf' lies either at the very start of the appended pattern
(l = []) or entirely inside l. -/
theorem pdf_boundary (l : List Char)
    (h : pdfChars.isPrefixOf (l ++ pdfChars) = true) :
    l = [] ∨ pdfChars.isPrefixOf l = true := by
  match l with
  | [] => exact Or.inl rfl
  | [a] =>
    exfalso
    simp only [pdfChars, List.cons_append, List.nil_append, List.isPrefixOf,
      Bool.and_eq_true] at h
    exact absurd h.2.1 (by decide)
  | [a, b] =>
    exfalso
    simp only [pdfChars, List.cons_append, List.nil_append, List.isPrefixOf,
      Bool.and_eq_true] at h
    exact absurd h.2.2.1 (by decide)
  | [a, b, c] =>
    exfalso
    simp only [pdfChars, List.cons_append, List.nil_append, List.isPrefixOf,
      Bool.and_eq_true] at h
    exact absurd h.2.2.2.1 (by decide)
  | a :: b :: c :: d :: rest =>
    refine Or.inr ?_
    simp only [pdfChars, List.cons_append, List.isPrefixOf, Bool.and_eq_true] at h ⊢
    exact ⟨h.1, h.2.1, h.2.2.1, h.2.2.2.1, trivial⟩

/-- Helper: on a filename built from a stem free of '.pdf' followed by the
'.pdf' extension, the replace loop rewrites exactly the extension. -/
theorem pyReplaceGo_stem_pdf (rep : List Char) :
    ∀ stem : List Char, hasSub pdfChars stem = false →
      pyReplaceGo pdfChars rep (stem ++ pdfChars) 0 = stem ++ rep := by
  intro stem
  induction stem with
  | nil =>
    intro _
    have h0 : pyReplaceGo pdfChars rep (([] : List Char) ++ pdfChars) 0
        = rep ++ ([] : List Char) := rfl
    rw [h0, List.append_nil, List.nil_append]
  | cons c stem ih =>
    intro h
    have h' : (pdfChars.isPrefixOf (c :: stem) || hasSub pdfChars stem) = false := h
    rw [Bool.or_eq_false_iff] at h'
    have hnp : pdfChars.isPrefixOf (c :: (stem ++ pdfChars)) = false := by
      cases hb : pdfChars.isPrefixOf (c :: (stem ++ pdfChars)) with
      | false => rfl
      | true =>
        have hb2 : pdfChars.isPrefixOf ((c :: stem) ++ pdfChars) = true := hb
        rcases pdf_boundary (c :: stem) hb2 with he | hpre
        · exact absurd he (by simp)
        · rw [h'.1] at hpre
          exact absurd hpre (by decide)
    show pyReplaceGo pdfChars rep (c :: (stem ++ pdfChars)) 0 = c :: (stem ++ rep)
    rw [pyReplaceGo, if_neg (by rw [hnp]; exact Bool.false_ne_true)]
    rw [ih h'.2]

/-- C8 counterexample: for the input path doc.PDF (opened fine by the reader,
which ignores the extension's case), the replace-based derivation changes
nothing, so the pipeline hands doc.save the source path itself instead of a
distinct <stem>_edited.pdf path. -/
theorem edit_text_can_overwrite_source :
    (edit_text envOpenOkNoMatch ("doc.PDF") ("a") ("b")).savedFile
      = some { path := "doc.PDF", pageCount := 1 } := by
  decide

/-- C8 (amended): for input paths made of a stem that contains no occurrence
of '.pdf' followed by the '.pdf' extension, the pipeline saves to
<stem>_edited.pdf, which differs from the source path. (In general the code
replaces every occurrence of '.pdf' in the path, and a path without a
lowercase '.pdf' occurrence is mapped to itself.) -/
theorem edit_text_output_path_suffix (env : DocEnv) (stem : List Char)
    (o n : String) (h : hasSub pdfChars stem = false) (ho : env.openOk = true) :
    (edit_text env (String.mk (stem ++ pdfChars)) o n).saveAttempt
      = some (String.mk (stem ++ ("_edited.pdf").data)) ∧
    String.mk (stem ++ ("_edited.pdf").data) ≠ String.mk (stem ++ pdfChars) := by
  constructor
  · have hout : output_path (String.mk (stem ++ pdfChars))
        = String.mk (stem ++ ("_edited.pdf").data) := by
      show String.mk (pyReplaceGo ((".pdf").data) (("_edited.pdf").data)
          (String.mk (stem ++ pdfChars)).data 0)
        = String.mk (stem ++ ("_edited.pdf").data)
      rw [show (".pdf").data = pdfChars from rfl]
      rw [show (String.mk (stem ++ pdfChars)).data = stem ++ pdfChars from rfl]
      rw [pyReplaceGo_stem_pdf (("_edited.pdf").data) stem h]
    cases hs : env.saveOk <;> simp [edit_text, ho, hs, hout]
  · intro he
    have hd : stem ++ ("_edited.pdf").data = stem ++ pdfChars :=
      congrArg String.data he
    have h2 := List.append_cancel_left hd
    exact absurd h2 (by decide)

/-- Witness for C8's amended theorem at the stem 'example'. -/
theorem edit_text_output_path_suffix_witness :
    (edit_text envOpenOkNoMatch
        (String.mk (("example").data ++ pdfChars)) ("a") ("b")).saveAttempt
      = some (String.mk (("example").data ++ ("_edited.pdf").data)) ∧
    String.mk (("example").data ++ ("_edited.pdf").data)
      ≠ String.mk (("example").data ++ pdfChars) :=
  edit_text_output_path_suffix envOpenOkNoMatch (("example").data) ("a") ("b")
    (by decide) rfl
